import Mathlib

/-!
# Verification of the Gasken card-validation service core

Shallow embedding of the validation/classification engine and the extension
executor of `src/main.py`, together with proofs settling the frozen claims
about its natural-language specification.

Conventions of the embedding:
* Python strings are Lean `String`s; character-level work happens on `.data`.
* Python `int(...)` (as applied to the strings reaching it in this program)
  is modelled by `pyIntL`: optional surrounding whitespace, an optional
  sign, then a nonempty run of decimal digits.
* Python exceptions are modelled with `Except`/error-shaped results exactly
  where the source catches or propagates them.
* Machine integers do not overflow in Python, so numbers are `Nat`/`Int`.
-/

/-- ASCII decimal-digit test: the model of Python's per-character digit
test used by `str.isdigit()` and `int(...)` on the inputs this program
handles. -/
def isDig (c : Char) : Bool :=
  decide (48 ≤ c.toNat ∧ c.toNat ≤ 57)

/-- Whitespace characters removed by Python's `str.strip()`. -/
def wsChar (c : Char) : Bool :=
  decide (c = ' ' ∨ c = '\t' ∨ c = '\n' ∨ c = '\r' ∨ c = '\x0b' ∨ c = '\x0c')

/-- `str.strip()` on a character list: drop whitespace from both ends. -/
def trimBoth (l : List Char) : List Char :=
  ((l.dropWhile wsChar).reverse.dropWhile wsChar).reverse

/-- Decimal value of a digit-character list, most significant first
(the value Python's `int` assigns to a digit string). -/
def digitsVal : List Char → Nat
  | [] => 0
  | c :: rest => (c.toNat - 48) * 10 ^ rest.length + digitsVal rest

/-- The digits-only part of Python `int(...)`: fails on an empty or
non-digit run. -/
def natPart (ds : List Char) : Option Int :=
  if ds ≠ [] ∧ (∀ c ∈ ds, isDig c = true) then some (Int.ofNat (digitsVal ds))
  else none

/-- Python `int(...)` on a character list: strip whitespace, allow one
leading sign, then a nonempty run of decimal digits; `none` models a
raised `ValueError`. -/
def pyIntL (l : List Char) : Option Int :=
  match trimBoth l with
  | [] => none
  | c :: rest =>
    if c = '+' then natPart rest
    else if c = '-' then (natPart rest).map (fun n => -n)
    else natPart (c :: rest)

/-- Python `s.startswith(p)` on character lists. -/
def swith : List Char → List Char → Bool
  | _, [] => true
  | [], _ :: _ => false
  | a :: s, b :: p => a == b && swith s p

/-- Python `s.startswith(tuple)`: true when some pattern in the tuple
matches. -/
def anySW (l : List Char) (ps : List (List Char)) : Bool :=
  ps.any (fun p => swith l p)

/-- Python `s.isdigit()`: nonempty and all decimal digits. -/
def isDigitsL (l : List Char) : Bool :=
  !l.isEmpty && l.all isDig

/-- Python `cc.split("|")` on a character list. -/
def splitBar : List Char → List (List Char)
  | [] => [[]]
  | c :: rest =>
    if c = '|' then [] :: splitBar rest
    else
      match splitBar rest with
      | [] => [[c]]
      | g :: gs => (c :: g) :: gs

/-- `Except.isErr` under a name local to this development. -/
def isErrB {ε α : Type} : Except ε α → Bool
  | Except.error _ => true
  | Except.ok _ => false

/-- `Except.isOk` under a name local to this development. -/
def isOkB {ε α : Type} : Except ε α → Bool
  | Except.error _ => false
  | Except.ok _ => true

/-! ## Network Classifier (`identify_card_type`, src/main.py lines 13-36) -/

/-- Worker for `identify_card_type` on the character list of the account
number. The chain of `if`s mirrors the source's `elif` chain; the
`pyIntL` branch models `int(first_six)`, whose `ValueError` (on inputs
whose first six characters do not parse) propagates out of the Python
function and is modelled by `Except.error ()`. -/
def cardTypeL (l : List Char) : Except Unit String :=
  if swith l ['4'] then Except.ok "VISA"
  else if anySW l [['5','1'], ['5','2'], ['5','3'], ['5','4'], ['5','5']] then
    Except.ok "MasterCard"
  else if anySW l [['3','4'], ['3','7']] then Except.ok "American Express"
  else if anySW l [['3','0','0'], ['3','0','1'], ['3','0','2'], ['3','0','3'],
      ['3','0','4'], ['3','0','5'], ['3','6'], ['3','8']] then
    Except.ok "Diners Club"
  else if anySW l [['6','0','1','1'], ['6','5'], ['6','4','4'], ['6','4','5'],
      ['6','4','6'], ['6','4','7'], ['6','4','8'], ['6','4','9'], ['6','2','2']] then
    Except.ok "Discover"
  else
    match pyIntL (l.take 6) with
    | none => Except.error ()
    | some n =>
      if 622126 ≤ n ∧ n ≤ 622925 then Except.ok "Discover"
      else if swith l ['3','5'] then Except.ok "JCB"
      else if anySW l [['5','0'], ['5','6'], ['5','7'], ['5','8'], ['6','3'], ['6','7']] then
        Except.ok "Maestro"
      else Except.ok "Unknown"

/-- `identify_card_type` from the source: BIN classification of the
account-number string. -/
def identify_card_type (s : String) : Except Unit String :=
  cardTypeL s.data

/-- The classifier rule table as the amended claim states it: the same
rules in source order, with the Discover rule being the string prefixes
6011, 65, 644-649 and 622, and no numeric range test. -/
def amended_card_type (l : List Char) : String :=
  if swith l ['4'] then "VISA"
  else if anySW l [['5','1'], ['5','2'], ['5','3'], ['5','4'], ['5','5']] then
    "MasterCard"
  else if anySW l [['3','4'], ['3','7']] then "American Express"
  else if anySW l [['3','0','0'], ['3','0','1'], ['3','0','2'], ['3','0','3'],
      ['3','0','4'], ['3','0','5'], ['3','6'], ['3','8']] then
    "Diners Club"
  else if anySW l [['6','0','1','1'], ['6','5'], ['6','4','4'], ['6','4','5'],
      ['6','4','6'], ['6','4','7'], ['6','4','8'], ['6','4','9'], ['6','2','2']] then
    "Discover"
  else if swith l ['3','5'] then "JCB"
  else if anySW l [['5','0'], ['5','6'], ['5','7'], ['5','8'], ['6','3'], ['6','7']] then
    "Maestro"
  else "Unknown"

/-- The classifier rule table exactly as claim C3 states it, with
longest/most-specific-match precedence: the numeric 622126-622925 test on
the first six digits decides Discover, and a number matching no rule is
Unknown. -/
def spec_card_type (l : List Char) : String :=
  if (∀ c ∈ l.take 6, isDig c = true) ∧ (l.take 6).length = 6 ∧
      622126 ≤ digitsVal (l.take 6) ∧ digitsVal (l.take 6) ≤ 622925 then
    "Discover"
  else if swith l ['6','0','1','1'] then "Discover"
  else if anySW l [['3','0','0'], ['3','0','1'], ['3','0','2'], ['3','0','3'],
      ['3','0','4'], ['3','0','5']] then "Diners Club"
  else if anySW l [['6','4','4'], ['6','4','5'], ['6','4','6'], ['6','4','7'],
      ['6','4','8'], ['6','4','9']] then "Discover"
  else if anySW l [['5','1'], ['5','2'], ['5','3'], ['5','4'], ['5','5']] then
    "MasterCard"
  else if anySW l [['3','4'], ['3','7']] then "American Express"
  else if anySW l [['3','6'], ['3','8']] then "Diners Club"
  else if anySW l [['6','5']] then "Discover"
  else if swith l ['3','5'] then "JCB"
  else if anySW l [['5','0'], ['5','6'], ['5','7'], ['5','8'], ['6','3'], ['6','7']] then
    "Maestro"
  else if swith l ['4'] then "VISA"
  else "Unknown"

/-! ## Expiry Evaluator (`check_expiry`, src/main.py lines 38-66) -/

/-- The expiry result dictionary: `valid` always present, the other
fields only on the paths that set them. -/
structure ExpiryResult where
  valid : Bool
  reason : Option String
  months_remaining : Option Int
  expiry_date : Option String
deriving DecidableEq

/-- Python `f"{m:02d}"` for the month values this program formats. -/
def fmt2 (m : Int) : String :=
  if 0 ≤ m ∧ m < 10 then "0" ++ toString m else toString m

/-- Python `s[-2:]`: the last two characters (the whole string when it is
shorter). -/
def lastTwo (s : String) : String :=
  String.mk (s.data.drop (s.data.length - 2))

/-- The body of `check_expiry` after both `int` conversions succeeded,
relative to the injected current year/month (the source reads
`datetime.now()`; the claims fix it explicitly). -/
def expiryCore (ey em cy cm : Int) : ExpiryResult :=
  if em < 1 ∨ 12 < em then ⟨false, some "Invalid month", none, none⟩
  else if ey < cy then ⟨false, some "Card expired (year)", none, none⟩
  else if ey = cy ∧ em < cm then ⟨false, some "Card expired (month)", none, none⟩
  else ⟨true, none, some ((ey - cy) * 12 + (em - cm)),
    some (fmt2 em ++ "/" ++ lastTwo (toString ey))⟩

/-- `check_expiry` from the source: a two-character year is prefixed with
"20"; any exception of the `int` conversions is downgraded to the
"Invalid date format" result by the bare `except`. -/
def check_expiry (month year : String) (cy cm : Int) : ExpiryResult :=
  match (if year.data.length = 2 then pyIntL ('2' :: '0' :: year.data) else pyIntL year.data),
      pyIntL month.data with
  | some ey, some em => expiryCore ey em cy cm
  | _, _ => ⟨false, some "Invalid date format", none, none⟩

/-! ## Checksum Validator (`luhn_check`, src/main.py lines 68-87) -/

/-- The luhn result dictionary: on success `valid`, `check_digit` and
`calculated_check`; on the exception path `valid` and `reason`. -/
structure LuhnResult where
  valid : Bool
  check_digit : Option Nat
  calculated_check : Option Nat
  reason : Option String
deriving DecidableEq

/-- Every other element of a list, starting with the first: the model of
Python's `xs[::2]` stride applied after reversal. -/
def everyOther : List Nat → List Nat
  | [] => []
  | [x] => [x]
  | x :: _ :: rest => x :: everyOther rest

/-- `for d in str(digit * 2): total += int(d)` — the decimal digit sum of
a doubled digit. -/
def digitSum2 (d : Nat) : Nat :=
  if 10 ≤ 2 * d then 2 * d / 10 + 2 * d % 10 else 2 * d

/-- The digit values of the account number, leftmost first. -/
def digitsOf (l : List Char) : List Nat :=
  l.map (fun c => c.toNat - 48)

/-- The total computed by `luhn_check`: `digits[-1::-2]` summed as is,
plus the digit sums of the doubled `digits[-2::-2]`. -/
def luhnTotal (ds : List Nat) : Nat :=
  (everyOther ds.reverse).sum + ((everyOther (ds.reverse.drop 1)).map digitSum2).sum

/-- Position-indexed Luhn total exactly as the spec words it: digits at
odd positions from the right (1-indexed) unchanged, digits at even
positions doubled and digit-summed. Defined on the reversed digit list. -/
def specLuhnAux : List Nat → Nat
  | [] => 0
  | [a] => a
  | a :: b :: rest => a + digitSum2 b + specLuhnAux rest

/-- Spec-side Luhn total of a digit list given leftmost first. -/
def specLuhnTotal (ds : List Nat) : Nat :=
  specLuhnAux ds.reverse

/-- `luhn_check` from the source. A non-digit character makes
`[int(d) for d in str(card_number)]` raise and an empty input makes
`digits[-1]` raise; both bare-`except` paths produce the same
"Calculation error" dictionary, so the two are collapsed into the guard. -/
def luhn_check (s : String) : LuhnResult :=
  if s.data ≠ [] ∧ (∀ c ∈ s.data, isDig c = true) then
    ⟨decide (luhnTotal (digitsOf s.data) % 10 = 0),
      some ((digitsOf s.data).getLastD 0),
      some ((10 - luhnTotal (digitsOf s.data) % 10) % 10),
      none⟩
  else ⟨false, none, none, some "Calculation error"⟩

/-! ## Score Aggregator (`calculate_score`, src/main.py lines 89-109) -/

/-- `calculate_score` from the source: 40 for a valid checksum, 40 for a
valid expiry plus `min(10, months // 12)` only when `months > 12`, an
unconditional 20, capped at 100. `months` is
`expiry_result.get("months_remaining", 0)`. -/
def calculate_score (l : LuhnResult) (e : ExpiryResult) : Int :=
  min 100 ((if l.valid then 40 else 0) +
    (if e.valid then
      40 + (if 12 < e.months_remaining.getD 0 then
        min 10 (Int.fdiv (e.months_remaining.getD 0) 12) else 0)
    else 0) + 20)

/-- The score formula exactly as claim C5 states it: the longevity bonus
`min(10, months // 12)` is added whenever the expiry is valid. -/
def spec_score (luhnValid expiryValid : Bool) (months : Int) : Int :=
  min 100 ((if luhnValid then 40 else 0) +
    (if expiryValid then 40 + min 10 (Int.fdiv months 12) else 0) + 20)

/-- The score formula as amended: the bonus applies only when
`months > 12`. -/
def spec_score_amended (luhnValid expiryValid : Bool) (months : Int) : Int :=
  min 100 ((if luhnValid then 40 else 0) +
    (if expiryValid then
      40 + (if 12 < months then min 10 (Int.fdiv months 12) else 0)
    else 0) + 20)

/-! ## Input Parser (`check_cc_comprehensive`, src/main.py lines 293-306)
and the masked descriptor (line 377) -/

/-- The parse-and-validate head of `/api/check`: split on `|`, require
exactly four fields, strip each, and require the account number to be all
digits. The `Except.error` values are the `HTTPException(400, ...)`
details. No other field is validated here. -/
def parse_cc (cc : String) : Except String (List Char × List Char × List Char × List Char) :=
  if (splitBar cc.data).length ≠ 4 then Except.error "Format: number|mm|yy|cvv"
  else
    if isDigitsL (trimBoth ((splitBar cc.data).getD 0 [])) = false then
      Except.error "Card number must be digits"
    else
      Except.ok (trimBoth ((splitBar cc.data).getD 0 []),
        trimBoth ((splitBar cc.data).getD 1 []),
        trimBoth ((splitBar cc.data).getD 2 []),
        trimBoth ((splitBar cc.data).getD 3 []))

/-- The rejection condition exactly as claim C4 states it: wrong field
count, non-digit or out-of-[15,19]-length account number, non-digit
expiry fields, or a security code that is not 3-4 digits, all after
trimming. -/
def spec_reject_cc (cc : String) : Bool :=
  decide ((splitBar cc.data).length ≠ 4) ||
  !isDigitsL (trimBoth ((splitBar cc.data).getD 0 [])) ||
  decide ((trimBoth ((splitBar cc.data).getD 0 [])).length < 15) ||
  decide (19 < (trimBoth ((splitBar cc.data).getD 0 [])).length) ||
  !isDigitsL (trimBoth ((splitBar cc.data).getD 1 [])) ||
  !isDigitsL (trimBoth ((splitBar cc.data).getD 2 [])) ||
  !isDigitsL (trimBoth ((splitBar cc.data).getD 3 [])) ||
  decide (¬((trimBoth ((splitBar cc.data).getD 3 [])).length = 3 ∨
    (trimBoth ((splitBar cc.data).getD 3 [])).length = 4))

/-- The masked descriptor of the validation report:
`f"{card_number[:6]}******{card_number[-4:]}"`. -/
def maskCard (s : String) : String :=
  String.mk (s.data.take 6 ++ ['*', '*', '*', '*', '*', '*'] ++
    s.data.drop (s.data.length - 4))

/-! ## Extension Registry & Executor (`execute_all_shapi_functions`,
src/main.py lines 157-195) -/

deriving instance DecidableEq for Except

/-- A module attribute: whether `callable(attr)` holds, and, for a
zero-argument call, its behaviour — a returned value or a raised
exception's message. -/
structure ExtAttr (α : Type) where
  callable : Bool
  run : Except String α
deriving DecidableEq

/-- The extension module handle: its named attributes in `dir` order.
Python guarantees the names are distinct. -/
def ExtModule (α : Type) : Type :=
  List (String × ExtAttr α)

/-- `getattr(shapi, name)` as a lookup; `none` models `AttributeError`. -/
def getattrM {α : Type} (m : ExtModule α) (n : String) : Option (ExtAttr α) :=
  List.lookup n m

/-- The discovery loop: public (not underscore-led) callable attribute
names. -/
def function_names {α : Type} (m : ExtModule α) : List String :=
  (List.filter (fun p => !(swith p.1.data ['_']) && p.2.callable) m).map (fun p => p.1)

/-- One entry of the outcome mapping. -/
structure ExtOutcome (α : Type) where
  success : Bool
  result : Option α
  error : Option String
deriving DecidableEq

/-- `execute_function` from the source: invoke the named attribute,
capturing any raised exception (including a failed `getattr` or a
non-callable attribute) as `success: false` with the message. -/
def execute_function {α : Type} (m : ExtModule α) (n : String) : String × ExtOutcome α :=
  match getattrM m n with
  | none => (n, ⟨false, none, some "AttributeError"⟩)
  | some a =>
    if a.callable then
      match a.run with
      | Except.ok v => (n, ⟨true, some v, none⟩)
      | Except.error e => (n, ⟨false, none, some e⟩)
    else (n, ⟨false, none, some "TypeError: not callable"⟩)

/-- `results[func_name] = result`: insert-or-replace into the dictionary,
modelled as an association list. -/
def dinsert {β : Type} (d : List (String × β)) (k : String) (v : β) : List (String × β) :=
  if (List.lookup k d).isSome then
    d.map (fun p => if p.1 == k then (k, v) else p)
  else d ++ [(k, v)]

/-- The execution report returned by `execute_all_shapi_functions`. -/
structure ExecReport (α : Type) where
  total_functions : Nat
  executed : Nat
  successful : Nat
  failed : Nat
  errors : List String
  results : List (String × ExtOutcome α)
deriving DecidableEq

/-- `execute_all_shapi_functions` from the source: discover the callables,
run each under `execute_function` semantics (`asyncio.gather` collects
every task's captured outcome in task order and lets no exception
escape), then fold the outcomes into the results dictionary and count the
failures. The function is total: no callable failure propagates. -/
def execute_all_shapi_functions {α : Type} (m : ExtModule α) : ExecReport α :=
  let names := function_names m
  let completed := names.map (execute_function m)
  let results := completed.foldl (fun d p => dinsert d p.1 p.2) []
  let errors := (completed.filter (fun p => !p.2.success)).map (fun p => p.1)
  ⟨names.length, results.length, results.length - errors.length,
    errors.length, errors, results⟩

/-- A three-callable extension module in which exactly one callable
raises, as in the spec's executor test. -/
def demoModule : ExtModule Nat :=
  [("alpha", ⟨true, Except.ok 1⟩), ("beta", ⟨true, Except.error "boom"⟩),
    ("gamma", ⟨true, Except.ok 3⟩)]

/-! ## Helper lemmas -/

theorem dig_not_ws {c : Char} (h : isDig c = true) : wsChar c = false := by
  simp only [isDig, decide_eq_true_eq] at h
  simp only [wsChar, decide_eq_false_iff_not]
  rintro (rfl | rfl | rfl | rfl | rfl | rfl) <;> exact absurd h.1 (by decide)

theorem dropWhile_no (p : Char → Bool) (l : List Char) (h : ∀ c ∈ l, p c = false) :
    l.dropWhile p = l := by
  cases l with
  | nil => rfl
  | cons a t =>
    have := h a (List.mem_cons_self a t)
    simp [List.dropWhile_cons, this]

theorem trim_digits {l : List Char} (h : ∀ c ∈ l, isDig c = true) : trimBoth l = l := by
  unfold trimBoth
  rw [dropWhile_no _ _ (fun c hc => dig_not_ws (h c hc))]
  rw [dropWhile_no, List.reverse_reverse]
  intro c hc
  exact dig_not_ws (h c (List.mem_reverse.mp hc))

theorem natPart_digits {l : List Char} (h1 : l ≠ []) (h2 : ∀ c ∈ l, isDig c = true) :
    natPart l = some (Int.ofNat (digitsVal l)) := by
  unfold natPart
  rw [if_pos ⟨h1, h2⟩]

theorem pyIntL_digits {l : List Char} (h1 : l ≠ []) (h2 : ∀ c ∈ l, isDig c = true) :
    pyIntL l = some (Int.ofNat (digitsVal l)) := by
  unfold pyIntL
  rw [trim_digits h2]
  cases l with
  | nil => exact absurd rfl h1
  | cons c rest =>
    have hc := h2 c (List.mem_cons_self c rest)
    have hplus : ¬ c = '+' := by rintro rfl; exact absurd hc (by decide)
    have hminus : ¬ c = '-' := by rintro rfl; exact absurd hc (by decide)
    dsimp only
    rw [if_neg hplus, if_neg hminus]
    exact natPart_digits h1 h2

theorem digitsVal_lt {l : List Char} (h : ∀ c ∈ l, isDig c = true) :
    digitsVal l < 10 ^ l.length := by
  induction l with
  | nil => simp [digitsVal]
  | cons c t ih =>
    have hc := h c (List.mem_cons_self c t)
    have h9 : c.toNat - 48 ≤ 9 := by
      simp only [isDig, decide_eq_true_eq] at hc; omega
    have ht := ih (fun x hx => h x (List.mem_cons_of_mem c hx))
    have hp : (c.toNat - 48) * 10 ^ t.length ≤ 9 * 10 ^ t.length :=
      Nat.mul_le_mul_right _ h9
    have hpow : (10:ℕ) ^ (t.length + 1) = 10 * 10 ^ t.length := by
      rw [pow_succ]; ring
    simp only [digitsVal, List.length_cons]
    omega

theorem everyOther_cons (b : Nat) (rest : List Nat) :
    everyOther (b :: rest) = b :: everyOther (rest.drop 1) := by
  cases rest <;> rfl

theorem luhn_split (l : List Nat) :
    (everyOther l).sum + ((everyOther (l.drop 1)).map digitSum2).sum = specLuhnAux l := by
  induction l using specLuhnAux.induct with
  | case1 => simp [everyOther, specLuhnAux]
  | case2 a => simp [everyOther, specLuhnAux]
  | case3 a b rest ih =>
    rw [show specLuhnAux (a :: b :: rest) = a + digitSum2 b + specLuhnAux rest from rfl]
    rw [show everyOther (a :: b :: rest) = a :: everyOther rest from rfl]
    rw [show (a :: b :: rest).drop 1 = b :: rest from rfl]
    rw [everyOther_cons]
    simp only [List.sum_cons, List.map_cons]
    omega

theorem luhnTotal_eq_spec (ds : List Nat) : luhnTotal ds = specLuhnTotal ds := by
  unfold luhnTotal specLuhnTotal
  exact luhn_split ds.reverse

/-! ## Claims about the checksum validator, score, parser and mask -/

/-- C1: for every all-digit account number, `luhn_check` reports
`valid = true` exactly when the spec's Luhn total (odd positions from the
right unchanged, even positions doubled and digit-summed) is divisible by
10; in particular it validates "4111111111111111". -/
theorem C1_luhn_spec (s : String) (h1 : s.data ≠ [])
    (h2 : ∀ c ∈ s.data, isDig c = true) :
    ((luhn_check s).valid = true ↔ specLuhnTotal (digitsOf s.data) % 10 = 0) ∧
    (luhn_check "4111111111111111").valid = true := by
  constructor
  · have hval : (luhn_check s).valid =
        decide (luhnTotal (digitsOf s.data) % 10 = 0) := by
      unfold luhn_check
      rw [if_pos ⟨h1, h2⟩]
    rw [hval, decide_eq_true_eq, luhnTotal_eq_spec]
  · decide

theorem C1_luhn_spec_witness :
    (((luhn_check "4111111111111111").valid = true ↔
      specLuhnTotal (digitsOf ("4111111111111111" : String).data) % 10 = 0) ∧
     (luhn_check "4111111111111111").valid = true) :=
  C1_luhn_spec "4111111111111111" (by decide) (by decide)

/-- C7 counterexample: for "4111111111111112" the validator reports
`calculated_check = 9`, not the 1 the claim asserts (9 is not the check
digit that would make the number valid). -/
theorem C7_checkdigit_cex :
    (luhn_check "4111111111111112").valid = false ∧
    (luhn_check "4111111111111112").calculated_check = some 9 ∧
    (luhn_check "4111111111111112").calculated_check ≠ some 1 := by decide

/-- C7 as amended: the reported expected check digit is
`(10 - total mod 10) mod 10` for the Luhn total of the whole input
(including its existing final digit) — the amount that rounds the total
up to a multiple of 10 — and for "4111111111111112" the validator reports
`valid = false` and `calculated_check = 9`. -/
theorem C7_checkdigit_amended (s : String) (h1 : s.data ≠ [])
    (h2 : ∀ c ∈ s.data, isDig c = true) :
    (luhn_check s).calculated_check =
      some ((10 - luhnTotal (digitsOf s.data) % 10) % 10) ∧
    (luhnTotal (digitsOf s.data) +
      (10 - luhnTotal (digitsOf s.data) % 10) % 10) % 10 = 0 ∧
    (luhn_check "4111111111111112").valid = false ∧
    (luhn_check "4111111111111112").calculated_check = some 9 := by
  refine ⟨?_, ?_, by decide, by decide⟩
  · unfold luhn_check
    rw [if_pos ⟨h1, h2⟩]
  · omega

theorem C7_checkdigit_amended_witness :
    ((luhn_check "4111111111111112").calculated_check =
      some ((10 - luhnTotal (digitsOf ("4111111111111112" : String).data) % 10) % 10) ∧
    (luhnTotal (digitsOf ("4111111111111112" : String).data) +
      (10 - luhnTotal (digitsOf ("4111111111111112" : String).data) % 10) % 10) % 10 = 0 ∧
    (luhn_check "4111111111111112").valid = false ∧
    (luhn_check "4111111111111112").calculated_check = some 9) :=
  C7_checkdigit_amended "4111111111111112" (by decide) (by decide)

/-- C10: on the empty account number `luhn_check` produces the
"Calculation error" invalid result (the `digits[-1]` lookup raises and
the bare `except` downgrades it), even though the Luhn total of no digits
is 0 and 0 mod 10 = 0. -/
theorem C10_empty_luhn :
    luhn_check "" = ⟨false, none, none, some "Calculation error"⟩ ∧
    luhnTotal (digitsOf ("" : String).data) % 10 = 0 ∧
    (luhn_check "").valid = false := by decide

/-- C5 counterexample: with an invalid checksum, a valid expiry and
`monthsRemaining = 12` the code scores 60, while the claim's formula
(bonus `min(10, months // 12)` whenever expiry is valid) gives 61: the
bonus is not added at `months = 12`. -/
theorem C5_score_cex :
    calculate_score ⟨false, none, none, none⟩ ⟨true, none, some 12, none⟩ = 60 ∧
    spec_score false true 12 = 61 ∧
    calculate_score ⟨false, none, none, none⟩ ⟨true, none, some 12, none⟩ ≠
      spec_score false true 12 := by decide

/-- C5 as amended: the score is 40 for a valid checksum plus, when the
expiry is valid, 40 plus the bonus `min(10, months // 12)` applied only
when `months > 12` (so `months = 12` adds no bonus), plus a fixed 20,
capped at 100; a checksum-valid, expiry-valid descriptor with
`monthsRemaining = 24` still scores 100. -/
theorem C5_score_amended (l : LuhnResult) (e : ExpiryResult) :
    calculate_score l e =
      spec_score_amended l.valid e.valid (e.months_remaining.getD 0) ∧
    calculate_score ⟨true, none, none, none⟩ ⟨true, none, some 24, none⟩ = 100 ∧
    spec_score_amended true true 12 = 100 ∧
    spec_score_amended false true 12 = 60 :=
  ⟨rfl, by decide, by decide, by decide⟩

/-- C4 counterexample: "4111|05|24|123" has a 4-digit account number —
outside the claimed [15,19] length window, so the claim says parsing
fails — yet the parser accepts it: no length, expiry or security-code
check exists at parse time. -/
theorem C4_parse_cex :
    parse_cc "4111|05|24|123" =
      Except.ok (['4','1','1','1'], ['0','5'], ['2','4'], ['1','2','3']) ∧
    spec_reject_cc "4111|05|24|123" = true ∧
    isErrB (parse_cc "4111|05|24|123") = false := by decide

/-- C4 as amended: parsing fails with a FormatError exactly when the
delimiter-split field count is not 4 or the whitespace-trimmed account
number is not all-digit; the two rejections the spec lists (3 fields,
non-digit PAN) do hold. -/
theorem C4_parse_amended :
    (∀ cc : String, isErrB (parse_cc cc) = true ↔
      ((splitBar cc.data).length ≠ 4 ∨
        isDigitsL (trimBoth ((splitBar cc.data).getD 0 [])) = false)) ∧
    parse_cc "123|05|24" = Except.error "Format: number|mm|yy|cvv" ∧
    parse_cc "41111111111111a1|05|24|123" =
      Except.error "Card number must be digits" := by
  refine ⟨?_, by decide, by decide⟩
  intro cc
  unfold parse_cc
  by_cases h4 : (splitBar cc.data).length ≠ 4
  · rw [if_pos h4]; simp [isErrB, h4]
  · rw [if_neg h4]
    by_cases hd : isDigitsL (trimBoth ((splitBar cc.data).getD 0 [])) = false
    · rw [if_pos hd]
      exact iff_of_true rfl (Or.inr hd)
    · rw [if_neg hd]
      refine iff_of_false (by simp [isErrB]) ?_
      rintro (h | h)
      · exact h4 h
      · exact hd h

/-- C9 counterexample: a 15-digit account number masks to a 16-character
string (the middle is always the fixed "******"), so the masked string
does not keep the input's length as the claim requires. -/
theorem C9_mask_cex :
    maskCard "340000000000009" = "340000******0009" ∧
    ("340000000000009" : String).data.length = 15 ∧
    (maskCard "340000000000009").data.length = 16 ∧
    (maskCard "340000000000009").data.length ≠
      ("340000000000009" : String).data.length := by decide

/-- C9 as amended: for every account number of length in [15,19] the mask
preserves the first 6 and last 4 characters and replaces the middle with
the fixed six-asterisk run, so the masked string always has length 16. -/
theorem C9_mask_amended (s : String) (h15 : 15 ≤ s.data.length)
    (h19 : s.data.length ≤ 19) :
    (maskCard s).data.length = 16 ∧
    (maskCard s).data.take 6 = s.data.take 6 ∧
    (maskCard s).data.drop 12 = s.data.drop (s.data.length - 4) ∧
    ((maskCard s).data.drop 6).take 6 = ['*','*','*','*','*','*'] := by
  have ht6 : (s.data.take 6).length = 6 := by
    rw [List.length_take]; omega
  have hd4 : (s.data.drop (s.data.length - 4)).length = 4 := by
    rw [List.length_drop]; omega
  have hdata : (maskCard s).data =
      s.data.take 6 ++ ['*','*','*','*','*','*'] ++
        s.data.drop (s.data.length - 4) := rfl
  refine ⟨?_, ?_, ?_, ?_⟩
  · rw [hdata, List.length_append, List.length_append, ht6, hd4]
    rfl
  · rw [hdata, List.append_assoc]
    exact List.take_left' ht6
  · rw [hdata]
    have h12 : (s.data.take 6 ++ ['*','*','*','*','*','*']).length = 12 := by
      simp [List.length_append, ht6]
    exact List.drop_left' h12
  · rw [hdata, List.append_assoc, List.drop_left' ht6]
    exact List.take_left' rfl

theorem C9_mask_amended_witness :
    ((maskCard "340000000000009").data.length = 16 ∧
    (maskCard "340000000000009").data.take 6 =
      ("340000000000009" : String).data.take 6 ∧
    (maskCard "340000000000009").data.drop 12 =
      ("340000000000009" : String).data.drop
        (("340000000000009" : String).data.length - 4) ∧
    ((maskCard "340000000000009").data.drop 6).take 6 =
      ['*','*','*','*','*','*']) :=
  C9_mask_amended "340000000000009" (by decide) (by decide)

/-! ## Claim about the expiry evaluator -/

/-- C6: relative to an injected current date, `check_expiry` rejects an
out-of-range month as "Invalid month", rejects a date strictly before the
current year/month as "Card expired (year)"/"Card expired (month)", and
otherwise succeeds with `monthsRemaining = (expYear-curYear)*12 +
(expMonth-curMonth)` and a normalized MM/YY string; at current date
2024-06, "05"/"24" is expired (month), "06"/"24" is valid with 0 months
remaining and "01"/"30" is valid with 67 months remaining. -/
theorem C6_expiry_behavior (cy cm : Int) (month year : String) (em ey : Int)
    (hm : pyIntL month.data = some em)
    (hy : (if year.data.length = 2 then pyIntL ('2' :: '0' :: year.data)
      else pyIntL year.data) = some ey) :
    ((em < 1 ∨ 12 < em) →
      check_expiry month year cy cm = ⟨false, some "Invalid month", none, none⟩) ∧
    (1 ≤ em → em ≤ 12 → ey < cy →
      check_expiry month year cy cm =
        ⟨false, some "Card expired (year)", none, none⟩) ∧
    (1 ≤ em → em ≤ 12 → ey = cy → em < cm →
      check_expiry month year cy cm =
        ⟨false, some "Card expired (month)", none, none⟩) ∧
    (1 ≤ em → em ≤ 12 → (cy < ey ∨ (ey = cy ∧ cm ≤ em)) →
      check_expiry month year cy cm =
        ⟨true, none, some ((ey - cy) * 12 + (em - cm)),
          some (fmt2 em ++ "/" ++ lastTwo (toString ey))⟩) ∧
    check_expiry "05" "24" 2024 6 = ⟨false, some "Card expired (month)", none, none⟩ ∧
    check_expiry "06" "24" 2024 6 = ⟨true, none, some 0, some "06/24"⟩ ∧
    check_expiry "01" "30" 2024 6 = ⟨true, none, some 67, some "01/30"⟩ := by
  have hce : check_expiry month year cy cm = expiryCore ey em cy cm := by
    unfold check_expiry
    rw [hy, hm]
  refine ⟨?_, ?_, ?_, ?_, by decide, by decide, by decide⟩
  · intro h
    rw [hce]; unfold expiryCore; rw [if_pos h]
  · intro h1 h2 h3
    rw [hce]; unfold expiryCore
    rw [if_neg (by omega), if_pos h3]
  · intro h1 h2 h3 h4
    rw [hce]; unfold expiryCore
    rw [if_neg (by omega), if_neg (by omega), if_pos ⟨h3, h4⟩]
  · intro h1 h2 h3
    rw [hce]; unfold expiryCore
    refine Eq.trans (if_neg (by omega)) ?_
    refine Eq.trans (if_neg ?_) ?_
    · rcases h3 with h | ⟨h, h'⟩ <;> omega
    refine if_neg ?_
    rintro ⟨he, hlt⟩
    rcases h3 with h | ⟨h, h'⟩ <;> omega

theorem C6_expiry_behavior_witness :
    check_expiry "06" "24" 2024 6 =
      ⟨true, none, some ((2024 - 2024) * 12 + (6 - 6)),
        some (fmt2 6 ++ "/" ++ lastTwo (toString (2024 : Int)))⟩ :=
  (C6_expiry_behavior 2024 6 "06" "24" 6 2024 (by decide) (by decide)).2.2.2.1
    (by decide) (by decide) (Or.inr ⟨rfl, by decide⟩)

/-! ## Claims about the network classifier -/

theorem swith_622_of_range {l : List Char} (hd : ∀ c ∈ l, isDig c = true)
    (h6 : 6 ≤ l.length) (hlo : 622126 ≤ digitsVal (l.take 6))
    (hhi : digitsVal (l.take 6) ≤ 622925) :
    swith l ['6','2','2'] = true := by
  rcases l with _ | ⟨a, _ | ⟨b, _ | ⟨c, _ | ⟨d, _ | ⟨e, _ | ⟨f, rest⟩⟩⟩⟩⟩⟩ <;>
    simp only [List.length_nil, List.length_cons] at h6 <;> try omega
  have ha : 48 ≤ a.toNat ∧ a.toNat ≤ 57 := by
    have := hd a (by simp); simpa [isDig] using this
  have hb : 48 ≤ b.toNat ∧ b.toNat ≤ 57 := by
    have := hd b (by simp); simpa [isDig] using this
  have hc : 48 ≤ c.toNat ∧ c.toNat ≤ 57 := by
    have := hd c (by simp); simpa [isDig] using this
  have hdd : 48 ≤ d.toNat ∧ d.toNat ≤ 57 := by
    have := hd d (by simp); simpa [isDig] using this
  have he : 48 ≤ e.toNat ∧ e.toNat ≤ 57 := by
    have := hd e (by simp); simpa [isDig] using this
  have hf : 48 ≤ f.toNat ∧ f.toNat ≤ 57 := by
    have := hd f (by simp); simpa [isDig] using this
  have htake : (a :: b :: c :: d :: e :: f :: rest).take 6 = [a, b, c, d, e, f] := rfl
  rw [htake] at hlo hhi
  simp only [digitsVal, List.length_cons, List.length_nil] at hlo hhi
  norm_num at hlo hhi
  have ha54 : a.toNat = 54 := by omega
  have hb50 : b.toNat = 50 := by omega
  have hc50 : c.toNat = 50 := by omega
  have ha6 : a = '6' := by
    have h := Char.ofNat_toNat a
    rw [ha54] at h
    exact h.symm.trans (by decide)
  have hb2 : b = '2' := by
    have h := Char.ofNat_toNat b
    rw [hb50] at h
    exact h.symm.trans (by decide)
  have hc2 : c = '2' := by
    have h := Char.ofNat_toNat c
    rw [hc50] at h
    exact h.symm.trans (by decide)
  subst ha6 hb2 hc2
  simp [swith]

theorem cardTypeL_digits (l : List Char) (h1 : l ≠ [])
    (h2 : ∀ c ∈ l, isDig c = true) :
    cardTypeL l = Except.ok (amended_card_type l) := by
  have htake_ne : l.take 6 ≠ [] := by
    cases l with
    | nil => exact absurd rfl h1
    | cons a t => simp
  have htake_dig : ∀ c ∈ l.take 6, isDig c = true :=
    fun c hc => h2 c ((List.take_sublist 6 l).subset hc)
  unfold cardTypeL amended_card_type
  by_cases p1 : swith l ['4'] = true
  · rw [if_pos p1, if_pos p1]
  rw [if_neg p1, if_neg p1]
  by_cases p2 : anySW l [['5','1'], ['5','2'], ['5','3'], ['5','4'], ['5','5']] = true
  · rw [if_pos p2, if_pos p2]
  rw [if_neg p2, if_neg p2]
  by_cases p3 : anySW l [['3','4'], ['3','7']] = true
  · rw [if_pos p3, if_pos p3]
  rw [if_neg p3, if_neg p3]
  by_cases p4 : anySW l [['3','0','0'], ['3','0','1'], ['3','0','2'], ['3','0','3'],
      ['3','0','4'], ['3','0','5'], ['3','6'], ['3','8']] = true
  · rw [if_pos p4, if_pos p4]
  rw [if_neg p4, if_neg p4]
  by_cases p5 : anySW l [['6','0','1','1'], ['6','5'], ['6','4','4'], ['6','4','5'],
      ['6','4','6'], ['6','4','7'], ['6','4','8'], ['6','4','9'], ['6','2','2']] = true
  · rw [if_pos p5, if_pos p5]
  rw [if_neg p5, if_neg p5]
  rw [pyIntL_digits htake_ne htake_dig]
  have hrange : ¬(622126 ≤ (Int.ofNat (digitsVal (l.take 6))) ∧
      (Int.ofNat (digitsVal (l.take 6))) ≤ 622925) := by
    rintro ⟨hlo, hhi⟩
    rw [Int.ofNat_eq_natCast] at hlo hhi
    have hlo' : 622126 ≤ digitsVal (l.take 6) := by exact_mod_cast hlo
    have hhi' : digitsVal (l.take 6) ≤ 622925 := by exact_mod_cast hhi
    by_cases h6 : 6 ≤ l.length
    · apply p5
      rw [anySW, List.any_eq_true]
      exact ⟨['6','2','2'], by simp, swith_622_of_range h2 h6 hlo' hhi'⟩
    · have hts : l.take 6 = l := List.take_of_length_le (by omega)
      have hlt := digitsVal_lt h2
      have hpl : (10:ℕ) ^ l.length ≤ 10 ^ 5 :=
        Nat.pow_le_pow_right (by norm_num) (by omega)
      rw [hts] at hlo'
      have h5v : (10:ℕ) ^ 5 = 100000 := by norm_num
      omega
  dsimp only
  rw [if_neg hrange]
  by_cases p6 : swith l ['3','5'] = true
  · rw [if_pos p6, if_pos p6]
  rw [if_neg p6, if_neg p6]
  by_cases p7 : anySW l [['5','0'], ['5','6'], ['5','7'], ['5','8'], ['6','3'], ['6','7']] = true
  · rw [if_pos p7, if_pos p7]
  rw [if_neg p7, if_neg p7]

/-- C3 counterexample: "6220000000000000" begins with "622" but its first
six digits (622000) are outside 622126-622925, so the claim's rule table
yields Unknown — yet the code classifies it as Discover, because the
source's Discover tuple contains the bare "622" string prefix. -/
theorem C3_card_table_cex :
    identify_card_type "6220000000000000" = Except.ok "Discover" ∧
    spec_card_type ("6220000000000000" : String).data = "Unknown" ∧
    identify_card_type "6220000000000000" ≠
      Except.ok (spec_card_type ("6220000000000000" : String).data) := by decide

/-- C3 as amended: on every all-digit account number the classifier
implements the source-order rule table whose Discover rule is the string
prefixes 6011, 65, 644-649 and 622 (every number starting with 622 is
Discover); the numeric 622126-622925 test never decides a digit string,
and the spec's five classification examples hold. -/
theorem C3_card_table_amended (s : String) (h1 : s.data ≠ [])
    (h2 : ∀ c ∈ s.data, isDig c = true) :
    identify_card_type s = Except.ok (amended_card_type s.data) ∧
    identify_card_type "4111111111111111" = Except.ok "VISA" ∧
    identify_card_type "5500000000000004" = Except.ok "MasterCard" ∧
    identify_card_type "340000000000009" = Except.ok "American Express" ∧
    identify_card_type "6011000000000004" = Except.ok "Discover" ∧
    identify_card_type "6221260000000000" = Except.ok "Discover" := by
  exact ⟨cardTypeL_digits s.data h1 h2, by decide, by decide, by decide,
    by decide, by decide⟩

theorem C3_card_table_amended_witness :
    (identify_card_type "6220000000000000" =
      Except.ok (amended_card_type ("6220000000000000" : String).data) ∧
    identify_card_type "4111111111111111" = Except.ok "VISA" ∧
    identify_card_type "5500000000000004" = Except.ok "MasterCard" ∧
    identify_card_type "340000000000009" = Except.ok "American Express" ∧
    identify_card_type "6011000000000004" = Except.ok "Discover" ∧
    identify_card_type "6221260000000000" = Except.ok "Discover") :=
  C3_card_table_amended "6220000000000000" (by decide) (by decide)

/-- C8 counterexample: the classifier is not total on arbitrary strings —
on the empty string every prefix rule misses and `int(card_number[:6])`
raises `ValueError`, which propagates out of `identify_card_type`. -/
theorem C8_total_cex :
    identify_card_type "" = Except.error () ∧
    identify_card_type "abc" = Except.error () ∧
    isOkB (identify_card_type "") = false := by decide

/-- C8 as amended: on every nonempty all-digit account number the
classifier returns normally with one of the eight network tags; totality
fails only for inputs (such as the empty string) whose first six
characters do not parse as an integer after no prefix rule matched. -/
theorem C8_total_amended (s : String) (h1 : s.data ≠ [])
    (h2 : ∀ c ∈ s.data, isDig c = true) :
    isOkB (identify_card_type s) = true ∧
    identify_card_type s = Except.ok (amended_card_type s.data) ∧
    (amended_card_type s.data = "VISA" ∨ amended_card_type s.data = "MasterCard" ∨
     amended_card_type s.data = "American Express" ∨
     amended_card_type s.data = "Diners Club" ∨
     amended_card_type s.data = "Discover" ∨ amended_card_type s.data = "JCB" ∨
     amended_card_type s.data = "Maestro" ∨ amended_card_type s.data = "Unknown") := by
  have hok := cardTypeL_digits s.data h1 h2
  refine ⟨by rw [identify_card_type, hok]; rfl, hok, ?_⟩
  unfold amended_card_type
  split_ifs <;> simp

theorem C8_total_amended_witness :
    (isOkB (identify_card_type "9999999999999999") = true ∧
    identify_card_type "9999999999999999" =
      Except.ok (amended_card_type ("9999999999999999" : String).data) ∧
    (amended_card_type ("9999999999999999" : String).data = "VISA" ∨
     amended_card_type ("9999999999999999" : String).data = "MasterCard" ∨
     amended_card_type ("9999999999999999" : String).data = "American Express" ∨
     amended_card_type ("9999999999999999" : String).data = "Diners Club" ∨
     amended_card_type ("9999999999999999" : String).data = "Discover" ∨
     amended_card_type ("9999999999999999" : String).data = "JCB" ∨
     amended_card_type ("9999999999999999" : String).data = "Maestro" ∨
     amended_card_type ("9999999999999999" : String).data = "Unknown")) :=
  C8_total_amended "9999999999999999" (by decide) (by decide)

/-! ## Claims about the extension executor -/

theorem exec_fst {α : Type} (m : ExtModule α) (n : String) :
    (execute_function m n).1 = n := by
  unfold execute_function
  cases getattrM m n with
  | none => rfl
  | some a =>
    dsimp only
    by_cases h : a.callable = true
    · rw [if_pos h]
      cases a.run <;> rfl
    · rw [if_neg h]

theorem lookup_none {β : Type} (acc : List (String × β)) (k : String)
    (h : k ∉ acc.map Prod.fst) : List.lookup k acc = none := by
  induction acc with
  | nil => rfl
  | cons p rest ih =>
    cases p with
    | mk k' v =>
      simp only [List.map_cons, List.mem_cons, not_or] at h
      have hk : (k == k') = false := beq_eq_false_iff_ne.mpr h.1
      simp only [List.lookup_cons, hk]
      exact ih h.2

theorem foldl_dinsert {β : Type} :
    ∀ (comp acc : List (String × β)),
      ((acc ++ comp).map Prod.fst).Nodup →
      comp.foldl (fun d p => dinsert d p.1 p.2) acc = acc ++ comp := by
  intro comp
  induction comp with
  | nil =>
    intro acc _
    simp
  | cons p rest ih =>
    intro acc h
    rw [List.foldl_cons]
    have hnotin : p.1 ∉ acc.map Prod.fst := by
      rw [List.map_append, List.nodup_append] at h
      intro hin
      exact h.2.2 hin (by simp)
    have hd : dinsert acc p.1 p.2 = acc ++ [p] := by
      unfold dinsert
      rw [lookup_none acc p.1 hnotin]
      simp
    rw [hd, ih (acc ++ [p]) (by simpa using h)]
    simp

theorem completed_keys {α : Type} (m : ExtModule α) (names : List String) :
    (names.map (execute_function m)).map Prod.fst = names := by
  rw [List.map_map]
  have hc : ∀ n ∈ names, (Prod.fst ∘ execute_function m) n = id n := by
    intro n _
    exact exec_fst m n
  rw [List.map_congr_left hc, List.map_id]

theorem lookup_mapped {α : Type} (m : ExtModule α) :
    ∀ (names : List String) (n : String), n ∈ names →
      List.lookup n (names.map (execute_function m)) =
        some (execute_function m n).2 := by
  intro names
  induction names with
  | nil =>
    intro n h
    simp at h
  | cons a rest ih =>
    intro n h
    rw [List.map_cons]
    have hfa : execute_function m a = (a, (execute_function m a).2) := by
      have h1 := exec_fst m a
      cases hfe : execute_function m a with
      | mk x y =>
        rw [hfe] at h1
        simp only at h1
        simp [h1]
    rw [hfa]
    by_cases he : n = a
    · subst he
      simp only [List.lookup_cons, beq_self_eq_true]
    · have hne : (n == a) = false := beq_eq_false_iff_ne.mpr he
      simp only [List.lookup_cons, hne]
      rcases List.mem_cons.mp h with h' | h'
      · exact absurd h' he
      · exact ih n h'

theorem function_names_nodup {α : Type} (m : ExtModule α)
    (h : (m.map Prod.fst).Nodup) : (function_names m).Nodup := by
  unfold function_names
  have hsub : (List.filter (fun p => !(swith p.1.data ['_']) && p.2.callable) m).Sublist m :=
    List.filter_sublist m
  exact List.Nodup.sublist (hsub.map Prod.fst) h

/-- C2: for every extension module (attribute names distinct, as Python
guarantees), `execute_all_shapi_functions` returns normally with
`total_functions` equal to the number of discovered public callables,
`successful + failed = total_functions`, and the results dictionary holds,
for every discovered callable name, exactly the outcome of executing that
callable in isolation — so one callable's raised exception never disturbs
the other outcomes and never escapes the batch. -/
theorem C2_executor_isolation {α : Type} (m : ExtModule α)
    (hnd : (m.map Prod.fst).Nodup) :
    (execute_all_shapi_functions m).total_functions = (function_names m).length ∧
    (execute_all_shapi_functions m).successful +
      (execute_all_shapi_functions m).failed =
      (execute_all_shapi_functions m).total_functions ∧
    ∀ n, n ∈ function_names m →
      List.lookup n (execute_all_shapi_functions m).results =
        some (execute_function m n).2 := by
  have hnames := function_names_nodup m hnd
  have hkeys := completed_keys m (function_names m)
  have hres : ((function_names m).map (execute_function m)).foldl
      (fun d p => dinsert d p.1 p.2) [] =
      (function_names m).map (execute_function m) := by
    apply foldl_dinsert
    rw [List.nil_append, hkeys]
    exact hnames
  refine ⟨rfl, ?_, ?_⟩
  · simp only [execute_all_shapi_functions]
    rw [hres]
    have hel : ((((function_names m).map (execute_function m)).filter
        (fun p => !p.2.success)).map (fun p => p.1)).length ≤
        ((function_names m).map (execute_function m)).length := by
      rw [List.length_map]
      exact List.length_filter_le _ _
    have hcl : ((function_names m).map (execute_function m)).length =
        (function_names m).length := List.length_map _ _
    omega
  · intro n hn
    simp only [execute_all_shapi_functions]
    rw [hres]
    exact lookup_mapped m (function_names m) n hn

theorem C2_executor_isolation_witness :
    ((execute_all_shapi_functions demoModule).total_functions =
      (function_names demoModule).length ∧
    (execute_all_shapi_functions demoModule).successful +
      (execute_all_shapi_functions demoModule).failed =
      (execute_all_shapi_functions demoModule).total_functions ∧
    ∀ n, n ∈ function_names demoModule →
      List.lookup n (execute_all_shapi_functions demoModule).results =
        some (execute_function demoModule n).2) ∧
    (execute_all_shapi_functions demoModule).total_functions = 3 ∧
    (execute_all_shapi_functions demoModule).successful = 2 ∧
    (execute_all_shapi_functions demoModule).failed = 1 ∧
    List.lookup "beta" (execute_all_shapi_functions demoModule).results =
      some ⟨false, none, some "boom"⟩ :=
  ⟨C2_executor_isolation demoModule (by decide), by decide, by decide,
    by decide, by decide⟩
